import Mathlib

/-
Verification of the bank-data-processor pipeline against its specification.

The Python sources are embedded shallowly:
* strings are Lean `String`s (ASCII fragment; the repository's data and all
  literals appearing in the checks are ASCII),
* `float` amounts are idealized as `ℚ`,
* a pandas cell that may be missing or null is `Option (Option _)`
  (`none` = the column is absent, `some none` = present but NA/NaN),
* a pandas `DataFrame` is a column-name list plus aligned row lists,
* functions that print debug diagnostics return the trace of the
  diagnostics they emitted alongside their return value.
-/

/- ---------------------------------------------------------------------
Python string primitives (src/validation.py, src/categorization.py).
The sources only ever apply them after `.upper()` / `.lower()` to ASCII
data, so the ASCII character classes below model `str.isalpha`,
`str.isdigit`, `str.isalnum` exactly on every string they are applied to.
--------------------------------------------------------------------- -/

/-- Characters 'A'..'Z'. On an uppercased ASCII string this is exactly
Python `str.isalpha` on a single character, and exactly the regex class
`[A-Z]`. -/
def isUpperAZ (c : Char) : Bool := decide ('A' ≤ c ∧ c ≤ 'Z')

/-- Characters '0'..'9' (Python `str.isdigit` on ASCII). -/
def isDigit09 (c : Char) : Bool := decide ('0' ≤ c ∧ c ≤ '9')

/-- Alphanumeric characters of an uppercased ASCII string
(Python `str.isalnum`). -/
def isAlnumAZ09 (c : Char) : Bool := isUpperAZ c || isDigit09 c

/-- Python `s.isalpha()` on a segment of an uppercased ASCII string:
false on the empty string, else every character alphabetic. -/
def pyIsAlpha (l : List Char) : Bool := !l.isEmpty && l.all isUpperAZ

/-- Python `s.isdigit()`: false on the empty string, else all digits. -/
def pyIsDigit (l : List Char) : Bool := !l.isEmpty && l.all isDigit09

/-- Python `s.isalnum()` on a segment of an uppercased ASCII string:
false on the empty string, else every character alphanumeric. -/
def pyIsAlnum (l : List Char) : Bool := !l.isEmpty && l.all isAlnumAZ09

/-- Python `str(x).replace(" ", "").upper()` — the normalization used by
`validate_iban` and `validate_bic`: drop space characters, uppercase. -/
def pyNormalize (s : String) : List Char :=
  (s.toList.filter (fun c => c ≠ ' ')).map Char.toUpper

/-- Python whitespace for `str.strip()` (ASCII fragment). -/
def isPyWS (c : Char) : Bool :=
  c = ' ' || c = '\t' || c = '\n' || c = '\r' || c = '\x0b' || c = '\x0c'

/-- Python `s.strip()`. -/
def pyStripChars (l : List Char) : List Char :=
  ((l.dropWhile isPyWS).reverse.dropWhile isPyWS).reverse

/-- Python `s.strip().upper()` as used on currencies in
`src/validation.py`. -/
def pyStripUpper (s : String) : String :=
  String.mk ((pyStripChars s.toList).map Char.toUpper)

/-- Python `s.lower()` (ASCII). -/
def pyLower (s : String) : List Char := s.toList.map Char.toLower

/- ---------------------------------------------------------------------
src/utils.py : mask_sensitive_data
--------------------------------------------------------------------- -/

/-- Embedding of `mask_sensitive_data` (src/utils.py lines 97-112):
empty input gives (""), input no longer than `charsToShow` is fully
starred, otherwise all but the last `charsToShow` characters are
replaced by stars.  The Python slice `data[-n:]` yields the whole
string when `n = 0`; the `if charsToShow = 0` branch reproduces that.
The Python default for `charsToShow` is 4. -/
def mask_sensitive_data (data : String) (charsToShow : Nat) : String :=
  if data.toList = [] then ("")
  else if data.toList.length ≤ charsToShow then
    String.mk (List.replicate data.toList.length '*')
  else
    String.mk (List.replicate (data.toList.length - charsToShow) '*' ++
      (if charsToShow = 0 then data.toList
       else data.toList.drop (data.toList.length - charsToShow)))

lemma toList_mk (l : List Char) : (String.mk l).toList = l := rfl

/-- C9: for every string longer than 4 characters, masking with 4 kept
characters preserves the length, ends with the last 4 original
characters, and every earlier character of the result is the mask
character '*'. -/
theorem mask_sensitive_data_spec :
    ∀ (s : String), 4 < s.toList.length →
      (mask_sensitive_data s 4).toList.length = s.toList.length ∧
      (mask_sensitive_data s 4).toList.drop (s.toList.length - 4) =
        s.toList.drop (s.toList.length - 4) ∧
      (mask_sensitive_data s 4).toList.take (s.toList.length - 4) =
        List.replicate (s.toList.length - 4) '*' := by
  intro s h
  have hne : ¬ s.toList = [] := by
    intro hx
    rw [hx] at h
    simp at h
  have hlen : ¬ s.toList.length ≤ 4 := by omega
  rw [mask_sensitive_data, if_neg hne, if_neg hlen, if_neg (by omega : ¬ (4 = 0))]
  rw [toList_mk]
  refine ⟨?_, ?_, ?_⟩
  · rw [List.length_append, List.length_replicate, List.length_drop]
    omega
  · have := List.drop_left (List.replicate (s.toList.length - 4) '*')
      (s.toList.drop (s.toList.length - 4))
    rw [List.length_replicate] at this
    exact this
  · have := List.take_left (List.replicate (s.toList.length - 4) '*')
      (s.toList.drop (s.toList.length - 4))
    rw [List.length_replicate] at this
    exact this

/-- C9 witness: the specification holds at the concrete IBAN of the spec. -/
theorem mask_sensitive_data_spec_witness :
    4 < ("FR1420041010050500013M02606" : String).toList.length ∧
      ((mask_sensitive_data ("FR1420041010050500013M02606") 4).toList.length =
        ("FR1420041010050500013M02606" : String).toList.length ∧
      (mask_sensitive_data ("FR1420041010050500013M02606") 4).toList.drop
          (("FR1420041010050500013M02606" : String).toList.length - 4) =
        ("FR1420041010050500013M02606" : String).toList.drop
          (("FR1420041010050500013M02606" : String).toList.length - 4) ∧
      (mask_sensitive_data ("FR1420041010050500013M02606") 4).toList.take
          (("FR1420041010050500013M02606" : String).toList.length - 4) =
        List.replicate (("FR1420041010050500013M02606" : String).toList.length - 4) '*') :=
  ⟨by decide, mask_sensitive_data_spec ("FR1420041010050500013M02606") (by decide)⟩

/- ---------------------------------------------------------------------
src/categorization.py
--------------------------------------------------------------------- -/

/-- The default keyword table `CATEGORIES_PAR_DEFAUT`
(src/categorization.py lines 11-19), in source (insertion) order. -/
def CATEGORIES_PAR_DEFAUT : List (String × List String) :=
  [("salaire", ["salaire", "payroll", "remuneration"]),
   ("loyer", ["loyer", "rent"]),
   ("alimentation", ["supermarche", "carrefour", "auchan", "leclerc", "alimentation",
      "epicerie", "boulangerie", "restaurant", "mcdo", "kfc", "burger"]),
   ("transports", ["sncf", "ratp", "uber", "taxi", "essence", "station", "carburant",
      "total", "autoroute"]),
   ("sante", ["pharmacie", "medecin", "hopital", "mutuelle", "doctolib"]),
   ("divertissement", ["cinema", "netflix", "spotify", "loisir", "concert", "jeux"]),
   ("autre", [])]

/-- Does `p` match at the head of `l`? -/
def headMatch : List Char → List Char → Bool
  | [], _ => true
  | _ :: _, [] => false
  | p :: ps, c :: cs => p == c && headMatch ps cs

/-- Does `l` contain `pat` as a contiguous subsequence?  This is exactly
what `re.search` does for a pattern that only matches one literal
string. -/
def hasSeq (pat : List Char) : List Char → Bool
  | [] => headMatch pat []
  | c :: cs => headMatch pat (c :: cs) || hasSeq pat cs

/-- The literal two-character text backslash-b.  The source builds its
search pattern with `rf"\\b{re.escape(mot)}\\b"`; in a raw f-string
`\\b` is the two characters backslash backslash b, which the regex
engine reads as an escaped literal backslash followed by the letter b.
With `re.escape(mot)` matching `mot` literally, the whole regex
therefore matches exactly the literal text `\b` ++ mot ++ `\b` — it is
NOT a word-boundary assertion. -/
def litBackslashB : List Char := ['\\', 'b']

/-- Embedding of `categoriser_transaction` (src/categorization.py lines
21-31).  `montant` is accepted and ignored, as in the source.  A `none`
or empty `categories` argument falls back to the default table (Python
`categories or CATEGORIES_PAR_DEFAUT`). -/
def categoriser_transaction (libelle : String) (montant : ℚ)
    (categories : Option (List (String × List String))) : String :=
  if libelle.toList = [] then ("autre")
  else
    let l := pyLower libelle
    let cats := match categories with
      | none => CATEGORIES_PAR_DEFAUT
      | some cs => if cs.isEmpty then CATEGORIES_PAR_DEFAUT else cs
    match cats.find? (fun cat =>
        cat.2.any (fun mot => hasSeq (litBackslashB ++ mot.toList ++ litBackslashB) l)) with
    | some cat => cat.1
    | none => "autre"

/-- C2: evaluation of the categorizer at the failing input.  A plain
description containing the keyword ("loyer") is NOT categorized (the
pattern built with `rf"\\b...\\b"` only matches a literal backslash-b),
while a description containing the literal text `\bloyer\b` is; the
empty description yields ("autre") regardless of the amount. -/
theorem categoriser_transaction_literal_backslash_bug :
    categoriser_transaction ("paiement loyer") 100 none = "autre" ∧
    categoriser_transaction ("paiement \\bloyer\\b merci") 100 none = "loyer" ∧
    categoriser_transaction ("") 100 none = "autre" ∧
    categoriser_transaction ("") 123456 none = "autre" := by
  refine ⟨?_, ?_, ?_, ?_⟩ <;> decide

/- ---------------------------------------------------------------------
src/validation.py : validate_bic, validate_iban
--------------------------------------------------------------------- -/

/-- Embedding of `validate_bic` (src/validation.py lines 19-55).
Returns the (bool, message) pair of the source; slices follow Python:
`bic[:4]` = take 4, `bic[4:6]` = drop 4 take 2, `bic[6:8]` = drop 6
take 2, `bic[8:]` = drop 8. -/
def validate_bic (bic0 : String) : Bool × String :=
  let bic := pyNormalize bic0
  if ¬ (bic.length = 8 ∨ bic.length = 11) then
    (false, ("Longueur BIC invalide: ") ++ toString bic.length ++
      (" caractères (attendu 8 ou 11)"))
  else if pyIsAlpha (bic.take 4) = false then
    (false, ("Code banque invalide (4 lettres attendues): ") ++ String.mk (bic.take 4))
  else if pyIsAlpha ((bic.drop 4).take 2) = false then
    (false, ("Code pays invalide (2 lettres attendues): ") ++
      String.mk ((bic.drop 4).take 2))
  else if pyIsAlnum ((bic.drop 6).take 2) = false then
    (false, ("Code localisation invalide (2 caractères alphanumériques attendus): ") ++
      String.mk ((bic.drop 6).take 2))
  else if bic.length = 11 ∧ pyIsAlnum (bic.drop 8) = false then
    (false, ("Code branche invalide (3 caractères alphanumériques attendus): ") ++
      String.mk (bic.drop 8))
  else (true, ("BIC valide"))

/-- The per-country IBAN length table of `validate_iban`
(src/validation.py lines 87-95). -/
def country_lengths : List (String × Nat) :=
  [("FR", 27), ("DE", 22), ("GB", 22), ("CI", 28), ("SN", 28), ("JP", 24), ("US", 24)]

/-- Embedding of `validate_iban` (src/validation.py lines 57-101).
The country-code test in the source is the regex `^[A-Z]{2}` applied
after uppercasing, i.e. the first two characters lie in A-Z (the
length-5 guard ensures two characters exist). -/
def validate_iban (iban0 : String) : Bool × String :=
  let iban := pyNormalize iban0
  if iban.length < 5 then (false, ("IBAN trop court"))
  else if (iban.take 2).all isUpperAZ = false then
    (false, ("Code pays IBAN invalide (2 lettres attendues): ") ++
      String.mk (iban.take 2))
  else if pyIsDigit ((iban.drop 2).take 2) = false then
    (false, ("Clé de contrôle IBAN invalide (2 chiffres attendus): ") ++
      String.mk ((iban.drop 2).take 2))
  else if pyIsAlnum (iban.drop 4) = false then
    (false, ("Format BBAN invalide (caractères alphanumériques attendus): ") ++
      String.mk (iban.drop 4))
  else
    match List.lookup (String.mk (iban.take 2)) country_lengths with
    | some n =>
      if iban.length ≠ n then
        (false, ("Longueur IBAN invalide pour ") ++ String.mk (iban.take 2) ++
          (": ") ++ toString iban.length ++ (" caractères (attendu ") ++
          toString n ++ (")"))
      else (true, ("IBAN valide"))
    | none => (true, ("IBAN valide"))

/-- The BIC acceptance condition exactly as the spec words it (§4.2):
after normalization, total length 8 or 11; chars 1-4 alphabetic; chars
5-6 alphabetic; chars 7-8 alphanumeric; chars 9-11, if present,
alphanumeric.  (On the uppercased ASCII string, alphabetic = A-Z.) -/
def bicSpecOK (s : String) : Bool :=
  let n := pyNormalize s
  (decide (n.length = 8 ∨ n.length = 11)) &&
  pyIsAlpha (n.take 4) &&
  pyIsAlpha ((n.drop 4).take 2) &&
  pyIsAlnum ((n.drop 6).take 2) &&
  (if n.length = 11 then pyIsAlnum (n.drop 8) else true)

/-- The IBAN acceptance condition exactly as the spec words it (§4.2):
after normalization, length at least 5; chars 1-2 alphabetic (on the
uppercased string, A-Z); chars 3-4 numeric; the remainder alphanumeric;
and when the country code is in the known length table the total length
equals the table entry, unknown country codes being accepted with no
length constraint. -/
def ibanSpecOK (s : String) : Bool :=
  let n := pyNormalize s
  (decide (5 ≤ n.length)) &&
  (n.take 2).all isUpperAZ &&
  pyIsDigit ((n.drop 2).take 2) &&
  pyIsAlnum (n.drop 4) &&
  (match List.lookup (String.mk (n.take 2)) country_lengths with
   | some len => decide (n.length = len)
   | none => true)

/-- C5: `validate_bic` accepts exactly the strings satisfying the
spec's structural condition, and classifies the spec's three examples
as stated ("BNPAFRPP" and "BNPAFRPPXXX" valid, "BNPAFRP" invalid). -/
theorem validate_bic_spec :
    (∀ (s : String), (validate_bic s).1 = bicSpecOK s) ∧
    (validate_bic ("BNPAFRPP")).1 = true ∧
    (validate_bic ("BNPAFRPPXXX")).1 = true ∧
    (validate_bic ("BNPAFRP")).1 = false := by
  refine ⟨?_, by decide, by decide, by decide⟩
  intro s
  rw [validate_bic, bicSpecOK]
  split_ifs with h1 h2 h3 h4 h5 <;> simp_all

/-- C4: `validate_iban` accepts exactly the strings satisfying the
spec's structural condition, and classifies the spec's three examples
as stated: the 27-character French IBAN passes, a 10-character string
with the unknown country code ZZ passes, and "12ABCDEFGH" fails. -/
theorem validate_iban_spec :
    (∀ (s : String), (validate_iban s).1 = ibanSpecOK s) ∧
    (validate_iban ("FR1420041010050500013M02606")).1 = true ∧
    (validate_iban ("ZZ12ABCDEF")).1 = true ∧
    (validate_iban ("12ABCDEFGH")).1 = false := by
  refine ⟨?_, by decide, by decide, by decide⟩
  intro s
  rw [validate_iban, ibanSpecOK]
  split_ifs with h1 h2 h3 h4
  · have h5 : ¬ 5 ≤ (pyNormalize s).length := by omega
    simp [h5]
  · simp [h2]
  · simp [h3]
  · simp [h4]
  · have h5 : 5 ≤ (pyNormalize s).length := by omega
    cases hL : List.lookup (String.mk ((pyNormalize s).take 2)) country_lengths with
    | none => simp_all
    | some n =>
      by_cases he : (pyNormalize s).length = n
      · simp_all
      · simp_all

/- ---------------------------------------------------------------------
src/validation.py : validate_transaction, and
src/data_processor.py : DataProcessor._validate_data
--------------------------------------------------------------------- -/

/-- A transaction row restricted to the five fields `validate_transaction`
reads.  Outer `none`: the column is absent from the row's index; inner
`none`: the value is NA/NaN (`pd.isna`). -/
structure TxRow where
  montant : Option (Option ℚ)
  devise : Option (Option String)
  ibanE : Option (Option String)
  ibanB : Option (Option String)
  bic : Option (Option String)
deriving DecidableEq

/-- The validation ruleset (configuration keys read by
`validate_transaction`): `rules.get("max_transaction_amount", float('inf'))`
is `none` when the key is absent (no finite amount exceeds infinity),
and `rules.get("allowed_currencies", [])`. -/
structure ValidationRules where
  max_transaction_amount : Option ℚ
  allowed_currencies : List String
deriving DecidableEq

/-- One debug diagnostic printed by `validate_transaction`
(src/validation.py lines 117, 122, 132, 138, 144, 149, 155, 158).
Constructors carry the interpolated values of the corresponding
f-string. -/
inductive DMsg where
  | missingCols
  | nullValues
  | amountTooHigh (montant : ℚ) (maxAmount : Option ℚ)
  | currencyNotAllowed (devise : String) (allowed : List String)
  | invalidIbanEmetteur (msg : String)
  | invalidIbanBeneficiaire (msg : String)
  | invalidBic (msg : String)
  | transactionValide
deriving DecidableEq

/-- The exact printed text of the diagnostics whose f-string has a
constant value (`missingCols` interpolates the constant list
`required_cols`); `none` for the diagnostics that interpolate row
data, whose payloads live in the `DMsg` constructors. -/
def dmsgText : DMsg → Option String
  | DMsg.missingCols =>
      some ("DEBUG: Colonnes manquantes. Colonnes requises: [\x27Montant\x27, \x27Devise\x27, \x27IBAN_Emetteur\x27, \x27IBAN_Beneficiaire\x27, \x27BIC_SWIFT\x27]")
  | DMsg.nullValues => some ("DEBUG: Valeurs nulles détectées")
  | DMsg.transactionValide => some ("DEBUG: Transaction valide")
  | _ => none

/-- `all(col in row.index for col in required_cols)` — all five required
columns present. -/
def requiredPresent (r : TxRow) : Bool :=
  r.montant.isSome && r.devise.isSome && r.ibanE.isSome && r.ibanB.isSome && r.bic.isSome

/-- `any(pd.isna(row[col]) for col in required_cols)`. -/
def anyNullField (r : TxRow) : Bool :=
  decide (r.montant = some none) || decide (r.devise = some none) ||
  decide (r.ibanE = some none) || decide (r.ibanB = some none) ||
  decide (r.bic = some none)

/-- Value of a field known to be present and non-null (the defaults are
never reached on the paths where this is used). -/
def fieldQ (v : Option (Option ℚ)) : ℚ := (v.getD none).getD 0

/-- String value of a field known to be present and non-null. -/
def fieldS (v : Option (Option String)) : String := (v.getD none).getD ("")

/-- Embedding of `validate_transaction` (src/validation.py lines
103-159).  The source returns a bare `bool` and prints one debug line
per outcome; the second component is the trace of those prints.  Checks
run in the source's order: required columns, null values, amount
threshold (`pd.notna(montant)` holds on this path, the null check
already passed), currency whitelist (only when the configured list is
non-empty), issuer IBAN, beneficiary IBAN, BIC. -/
def validate_transaction (r : TxRow) (rules : ValidationRules) : Bool × List DMsg :=
  if requiredPresent r = false then (false, [DMsg.missingCols])
  else if anyNullField r = true then (false, [DMsg.nullValues])
  else
    let montant := fieldQ r.montant
    let devise := pyStripUpper (fieldS r.devise)
    let amountExceeded : Bool :=
      match rules.max_transaction_amount with
      | some maxAmt => decide (montant > maxAmt)
      | none => false
    if amountExceeded = true then
      (false, [DMsg.amountTooHigh montant rules.max_transaction_amount])
    else
      let allowed := rules.allowed_currencies.map pyStripUpper
      if allowed ≠ [] ∧ devise ∉ allowed then
        (false, [DMsg.currencyNotAllowed devise allowed])
      else if (validate_iban (fieldS r.ibanE)).1 = false then
        (false, [DMsg.invalidIbanEmetteur (validate_iban (fieldS r.ibanE)).2])
      else if (validate_iban (fieldS r.ibanB)).1 = false then
        (false, [DMsg.invalidIbanBeneficiaire (validate_iban (fieldS r.ibanB)).2])
      else if (validate_bic (fieldS r.bic)).1 = false then
        (false, [DMsg.invalidBic (validate_bic (fieldS r.bic)).2])
      else (true, [DMsg.transactionValide])

/-- The ruleset of the repository's configuration and tests:
max 10,000,000 and currencies XOF, EUR, USD. -/
def rulesDemo : ValidationRules := ⟨some 10000000, [("XOF"), ("EUR"), ("USD")]⟩

/-- A row whose `Montant` column is missing. -/
def rowMissingMontant : TxRow :=
  ⟨none, some (some ("XOF")), some (some ("FR1420041010050500013M02606")),
   some (some ("FR1420041010050500013M02606")), some (some ("BNPAFRPP"))⟩

/-- The amount-rule row of the spec: Amount 15,000,000 (with an
additionally disallowed currency, to expose check order). -/
def rowAmount15M : TxRow :=
  ⟨some (some 15000000), some (some ("JPY")), some (some ("FR1420041010050500013M02606")),
   some (some ("FR1420041010050500013M02606")), some (some ("BNPAFRPP"))⟩

/-- A fully valid row (amount 5,000,000, XOF, well-formed IBANs/BIC). -/
def rowValid5M : TxRow :=
  ⟨some (some 5000000), some (some ("XOF")), some (some ("CI00112345678901234567890123")),
   some (some ("SN01098765432109876543210987")), some (some ("ABCDEFGH"))⟩

/-- C3 counterexample: at a concrete row with a missing required field,
`validate_transaction` returns the bare boolean `false` together with
the French debug diagnostic; no `(valid, reason)` pair with reason
"missing field" is returned — the only reason-like output is the
printed line, whose text differs from "missing field". -/
theorem validate_transaction_missing_field_reason_cex :
    validate_transaction rowMissingMontant rulesDemo = (false, [DMsg.missingCols]) ∧
    dmsgText DMsg.missingCols =
      some ("DEBUG: Colonnes manquantes. Colonnes requises: [\x27Montant\x27, \x27Devise\x27, \x27IBAN_Emetteur\x27, \x27IBAN_Beneficiaire\x27, \x27BIC_SWIFT\x27]") ∧
    dmsgText DMsg.missingCols ≠ some ("missing field") := by
  refine ⟨by decide, by decide, by decide⟩

/-- C3 (amended): `validate_transaction` returns a boolean verdict plus
the trace of its debug prints.  A row with a required field missing is
invalid with the missing-columns diagnostic; a present-but-null field
gives the null-values diagnostic; a true verdict implies all fields
were present and non-null; the 15,000,000 row under max 10,000,000 is
invalid and its single diagnostic is the amount one, carrying the
offending amount (it fires before the also-failing currency check,
showing the fixed order); the fully valid row passes. -/
theorem validate_transaction_spec :
    (∀ (r : TxRow) (rules : ValidationRules), requiredPresent r = false →
        validate_transaction r rules = (false, [DMsg.missingCols])) ∧
    (∀ (r : TxRow) (rules : ValidationRules), requiredPresent r = true →
        anyNullField r = true →
        validate_transaction r rules = (false, [DMsg.nullValues])) ∧
    (∀ (r : TxRow) (rules : ValidationRules), (validate_transaction r rules).1 = true →
        requiredPresent r = true ∧ anyNullField r = false) ∧
    validate_transaction rowAmount15M rulesDemo =
      (false, [DMsg.amountTooHigh 15000000 (some 10000000)]) ∧
    validate_transaction rowValid5M rulesDemo = (true, [DMsg.transactionValide]) := by
  refine ⟨?_, ?_, ?_, by decide, by decide⟩
  · intro r rules h
    rw [validate_transaction, if_pos h]
  · intro r rules h hn
    rw [validate_transaction, if_neg (by simp [h]), if_pos hn]
  · intro r rules h
    by_cases h1 : requiredPresent r = false
    · rw [validate_transaction, if_pos h1] at h
      simp at h
    · refine ⟨by simpa using h1, ?_⟩
      by_cases h2 : anyNullField r = true
      · rw [validate_transaction, if_neg h1, if_pos h2] at h
        simp at h
      · simpa using h2

/-- C3 witness: the amended theorem applied at the concrete
missing-field row. -/
theorem validate_transaction_spec_witness :
    requiredPresent rowMissingMontant = false ∧
    validate_transaction rowMissingMontant rulesDemo = (false, [DMsg.missingCols]) :=
  ⟨by decide, validate_transaction_spec.1 rowMissingMontant rulesDemo (by decide)⟩

/-- `df[col] = pd.NA` for each missing expected column
(src/data_processor.py lines 302-305): every absent field becomes
present-but-NA. -/
def fillMissing (r : TxRow) : TxRow :=
  ⟨some (r.montant.getD none), some (r.devise.getD none), some (r.ibanE.getD none),
   some (r.ibanB.getD none), some (r.bic.getD none)⟩

/-- Python `str(x)` on a cell that `fillMissing` made present:
the string itself, or `"<NA>"` for `pd.NA`. -/
def pyStrCell (v : Option (Option String)) : String :=
  match v with
  | some (some s) => s
  | _ => ("<NA>")

/-- Post-validation masking of the sensitive IBAN columns
(src/data_processor.py lines 337-343):
`lambda x: mask_sensitive_data(str(x))`, default 4 kept characters. -/
def maskRow (r : TxRow) : TxRow :=
  { r with
    ibanE := some (some (mask_sensitive_data (pyStrCell r.ibanE) 4)),
    ibanB := some (some (mask_sensitive_data (pyStrCell r.ibanB) 4)) }

/-- Embedding of `DataProcessor._validate_data` (src/data_processor.py
lines 283-350): empty input gives two empty frames; otherwise missing
expected columns are added as NA, each row is classified by
`validate_transaction` (the source's try/except around it cannot fire
in this typed model: the embedded checks are total), the rows are split
by the `is_valid` mask, the helper column is dropped (rows here never
carry it) and the sensitive IBAN columns are masked in both outputs. -/
def validate_data (rows : List TxRow) (rules : ValidationRules) :
    List TxRow × List TxRow :=
  if rows.isEmpty then ([], [])
  else
    let filled := rows.map fillMissing
    ((filled.filter (fun r => (validate_transaction r rules).1)).map maskRow,
     (filled.filter (fun r => !(validate_transaction r rules).1)).map maskRow)

lemma length_filter_add_length_filter_not (l : List α) (p : α → Bool) :
    (l.filter p).length + (l.filter (fun a => !(p a))).length = l.length := by
  induction l with
  | nil => rfl
  | cons a l ih =>
    cases h : p a <;> simp [List.filter_cons, h, Nat.add_assoc, Nat.add_comm,
      Nat.add_left_comm, ih] <;> omega

/-- C6: `_validate_data` totally partitions its input rows: the valid
output is exactly the masked image of the NA-filled rows whose
validation verdict is true, the invalid output exactly of those whose
verdict is false (each row lands on exactly one side), and the two
output sizes sum to the input size. -/
theorem validate_data_partition :
    ∀ (rows : List TxRow) (rules : ValidationRules),
      (validate_data rows rules).1.length + (validate_data rows rules).2.length =
        rows.length ∧
      (validate_data rows rules).1 =
        ((rows.map fillMissing).filter
          (fun r => (validate_transaction r rules).1)).map maskRow ∧
      (validate_data rows rules).2 =
        ((rows.map fillMissing).filter
          (fun r => !((validate_transaction r rules).1))).map maskRow := by
  intro rows rules
  by_cases h : rows.isEmpty
  · have hr : rows = [] := by
      cases rows
      · rfl
      · simp at h
    subst hr
    refine ⟨rfl, rfl, rfl⟩
  · rw [validate_data, if_neg h]
    refine ⟨?_, rfl, rfl⟩
    rw [List.length_map, List.length_map,
      length_filter_add_length_filter_not ((rows.map fillMissing))
        (fun r => (validate_transaction r rules).1),
      List.length_map]

/- ---------------------------------------------------------------------
src/data_processor.py : the recovery ledger
(_save_processed_file, _is_processed, and the run_pipeline scan filter)
--------------------------------------------------------------------- -/

/-- The ledger state: the in-memory `self.processed_files` list and the
lines of the processed-files log file. -/
structure Ledger where
  processed : List String
  ledgerFile : List String
deriving DecidableEq

/-- Embedding of `DataProcessor._save_processed_file`
(src/data_processor.py lines 77-88).  `rel` models
`file_path.relative_to(self.project_root)`: `none` when that raises
(the except block logs and leaves the state unchanged).  When the
relative identifier is not yet in the in-memory list, it is appended to
the list and a line is appended to the log file; otherwise nothing
changes. -/
def save_processed_file (rel : String → Option String) (st : Ledger) (p : String) :
    Ledger :=
  match rel p with
  | none => st
  | some r =>
    if r ∈ st.processed then st
    else ⟨st.processed ++ [r], st.ledgerFile ++ [r]⟩

/-- Embedding of `DataProcessor._is_processed` (src/data_processor.py
lines 90-98): membership of the relative identifier in the in-memory
list; `false` when the relative path cannot be computed. -/
def is_processed (rel : String → Option String) (st : Ledger) (p : String) : Bool :=
  match rel p with
  | none => false
  | some r => decide (r ∈ st.processed)

/-- The scan filter of `run_pipeline` (src/data_processor.py lines
366-370): keep supported files that are not already processed. -/
def scan_candidates (rel : String → Option String) (st : Ledger)
    (supported : String → Bool) (files : List String) : List String :=
  files.filter (fun f => supported f && !(is_processed rel st f))

/-- Ledger well-formedness: the log file lines are exactly the
in-memory list (as after `_load_processed_files` on a log the processor
itself wrote), without duplicates. -/
def LedgerInv (st : Ledger) : Prop :=
  st.ledgerFile = st.processed ∧ st.processed.Nodup

/-- C7: saving a processed file puts its relative identifier in the
in-memory set and in the ledger file, makes `_is_processed` true (so
the next run's scan skips the file), is idempotent — a second save
changes neither component — and keeps the identifier's multiplicity in
the ledger file at exactly one. -/
theorem save_processed_file_spec :
    ∀ (rel : String → Option String) (st : Ledger) (p id : String),
      LedgerInv st → rel p = some id →
      (id ∈ (save_processed_file rel st p).processed ∧
       id ∈ (save_processed_file rel st p).ledgerFile ∧
       is_processed rel (save_processed_file rel st p) p = true ∧
       save_processed_file rel (save_processed_file rel st p) p =
         save_processed_file rel st p ∧
       LedgerInv (save_processed_file rel st p) ∧
       (save_processed_file rel st p).ledgerFile.count id = 1 ∧
       (∀ (supported : String → Bool) (files : List String),
         p ∉ scan_candidates rel (save_processed_file rel st p) supported files)) := by
  intro rel st p id hinv hrel
  have hfile : st.ledgerFile = st.processed := hinv.1
  have hnd : st.processed.Nodup := hinv.2
  by_cases hmem : id ∈ st.processed
  · have hsave : save_processed_file rel st p = st := by
      rw [save_processed_file, hrel]
      simp [hmem]
    rw [hsave]
    have hcount : st.ledgerFile.count id = 1 := by
      rw [hfile]
      exact List.count_eq_one_of_mem hnd hmem
    have hproc : is_processed rel st p = true := by
      rw [is_processed, hrel]
      simpa using hmem
    refine ⟨hmem, by rw [hfile]; exact hmem, hproc, hsave, hinv, hcount, ?_⟩
    intro supported files hin
    rw [scan_candidates, List.mem_filter] at hin
    rw [hproc] at hin
    simp at hin
  · have hsave : save_processed_file rel st p =
        ⟨st.processed ++ [id], st.ledgerFile ++ [id]⟩ := by
      rw [save_processed_file, hrel]
      simp [hmem]
    rw [hsave]
    have hmem2 : id ∈ st.processed ++ [id] := by simp
    have hproc : is_processed rel (⟨st.processed ++ [id], st.ledgerFile ++ [id]⟩ : Ledger) p = true := by
      rw [is_processed, hrel]
      simpa using hmem2
    have hnd2 : (st.processed ++ [id]).Nodup := by
      rw [List.nodup_append]
      exact ⟨hnd, List.nodup_singleton id, by simpa using hmem⟩
    refine ⟨hmem2, by rw [hfile]; exact hmem2, hproc, ?_, ⟨by rw [hfile], hnd2⟩, ?_, ?_⟩
    · rw [save_processed_file, hrel]
      simp [hmem2]
    · rw [List.count_append, hfile]
      rw [List.count_eq_zero_of_not_mem hmem]
      simp
    · intro supported files hin
      rw [scan_candidates, List.mem_filter] at hin
      rw [hproc] at hin
      simp at hin

/-- The identity relative-path function, for the witness: every path is
its own relative identifier. -/
def relSelf : String → Option String := fun s => some s

/-- C7 witness: the theorem applied to the empty ledger and a concrete
file path. -/
theorem save_processed_file_spec_witness :
    LedgerInv ⟨[], []⟩ ∧ relSelf ("data/input/releve.csv") = some ("data/input/releve.csv") ∧
    (("data/input/releve.csv") ∈ (save_processed_file relSelf ⟨[], []⟩ ("data/input/releve.csv")).processed ∧
     ("data/input/releve.csv") ∈ (save_processed_file relSelf ⟨[], []⟩ ("data/input/releve.csv")).ledgerFile ∧
     is_processed relSelf (save_processed_file relSelf ⟨[], []⟩ ("data/input/releve.csv")) ("data/input/releve.csv") = true ∧
     save_processed_file relSelf (save_processed_file relSelf ⟨[], []⟩ ("data/input/releve.csv")) ("data/input/releve.csv") =
       save_processed_file relSelf ⟨[], []⟩ ("data/input/releve.csv") ∧
     LedgerInv (save_processed_file relSelf ⟨[], []⟩ ("data/input/releve.csv")) ∧
     (save_processed_file relSelf ⟨[], []⟩ ("data/input/releve.csv")).ledgerFile.count ("data/input/releve.csv") = 1 ∧
     (∀ (supported : String → Bool) (files : List String),
       ("data/input/releve.csv") ∉ scan_candidates relSelf
         (save_processed_file relSelf ⟨[], []⟩ ("data/input/releve.csv")) supported files)) :=
  ⟨⟨rfl, List.nodup_nil⟩, rfl,
    save_processed_file_spec relSelf ⟨[], []⟩ ("data/input/releve.csv")
      ("data/input/releve.csv") ⟨rfl, List.nodup_nil⟩ rfl⟩

/- ---------------------------------------------------------------------
src/fraud_detection.py : detect_anomalies
--------------------------------------------------------------------- -/

/-- A pandas DataFrame restricted to numeric-or-null cells (the only
cells the anomaly detector's arithmetic is defined on): a list of
column names and rows of cells aligned with it positionally. -/
structure DFrame where
  cols : List String
  rows : List (List (Option ℚ))
deriving DecidableEq

/-- Well-formedness: every row has one cell per column. -/
def DFrame.wf (df : DFrame) : Prop := ∀ r ∈ df.rows, r.length = df.cols.length

/-- Position of a column name in a column list (first occurrence). -/
def colIdx (c : String) : List String → Nat
  | [] => 0
  | c2 :: rest => if c2 = c then 0 else colIdx c rest + 1

/-- `df[c]` — the column's cell list, or `none` when the column is
absent (`c not in df.columns`). -/
def getCol (df : DFrame) (c : String) : Option (List (Option ℚ)) :=
  if c ∈ df.cols then
    some (df.rows.map (fun r => r.getD (colIdx c df.cols) none))
  else none

/-- `df[c] = vs` — overwrite the column in place when present, else
append it as the last column. -/
def setCol (df : DFrame) (c : String) (vs : List (Option ℚ)) : DFrame :=
  if c ∈ df.cols then
    { cols := df.cols,
      rows := (df.rows.zip vs).map (fun rv => rv.1.set (colIdx c df.cols) rv.2) }
  else
    { cols := df.cols ++ [c],
      rows := (df.rows.zip vs).map (fun rv => rv.1 ++ [rv.2]) }

/-- `df.drop(columns=[c])` (no-op here when the column is absent; the
source only drops the column it just created). -/
def dropCol (df : DFrame) (c : String) : DFrame :=
  if c ∈ df.cols then
    { cols := df.cols.eraseIdx (colIdx c df.cols),
      rows := df.rows.map (fun r => r.eraseIdx (colIdx c df.cols)) }
  else df

/-- Boolean-mask row selection `df[mask]`. -/
def filterMask (df : DFrame) (mask : List Bool) : DFrame :=
  { cols := df.cols,
    rows := ((df.rows.zip mask).filter (fun rb => rb.2)).map (fun rb => rb.1) }

/-- Population mean of the non-null values (`Series.mean()` skips NaN). -/
def popMean (xs : List ℚ) : ℚ := xs.sum / (xs.length : ℚ)

/-- Population variance (`Series.std(ddof=0)` squared), over the
non-null values. -/
def popVar (xs : List ℚ) : ℚ :=
  ((xs.map (fun x => (x - popMean xs) ^ 2)).sum) / (xs.length : ℚ)

/-- The float comparison `abs((x - mean) / std) > t` with
`std = √(popVar)`, expressed without the square root so that it stays
in ℚ: for `0 ≤ t` and `var ≠ 0` it is equivalent to
`(x - mean)² > t² · var`; for `t < 0` it holds whenever `var ≠ 0`
(a nonnegative z-score exceeds a negative threshold); and for
`var = 0` the float z-scores are NaN (0/0), so every comparison is
false and nothing is flagged. -/
def zflag (m v t x : ℚ) : Bool :=
  if v = 0 then false
  else if 0 ≤ t then decide ((x - m) ^ 2 > t ^ 2 * v) else true

/-- The flag of one cell of the amount column: null cells have NaN
z-scores and are never flagged; non-null cells are flagged by the
z-score comparison. -/
def zcellFlag (m v t : ℚ) : Option ℚ → Bool
  | some x => zflag m v t x
  | none => false

/-- Embedding of `detect_anomalies` (src/fraud_detection.py lines
5-15).  Missing or all-null `montantCol` gives the empty frame
`pd.DataFrame()` (no columns, no rows).  Otherwise, on a copy of the
frame, a `zscore` column is materialized (its cell values are dropped
before returning and never observed — the embedding stores nulls and
computes the flag mask directly from the column statistics), the rows
whose z-score comparison holds are selected, and the `zscore` column
is dropped again. -/
def detect_anomalies (df : DFrame) (montantCol : String) (seuil : ℚ) : DFrame :=
  match getCol df montantCol with
  | none => { cols := [], rows := [] }
  | some vs =>
    if vs.all (fun c => c.isNone) then { cols := [], rows := [] }
    else
      let xs := vs.filterMap id
      let mask := vs.map (zcellFlag (popMean xs) (popVar xs) seuil)
      let df2 := setCol df ("zscore") (vs.map (fun _ => (none : Option ℚ)))
      dropCol (filterMask df2 mask) ("zscore")

lemma colIdx_append_self (c : String) (l : List String) (h : c ∉ l) :
    colIdx c (l ++ [c]) = l.length := by
  induction l with
  | nil => simp [colIdx]
  | cons a l ih =>
    have ha : ¬ (a = c) := by
      intro hx
      exact h (by simp [hx])
    have h2 : c ∉ l := fun hx => h (by simp [hx])
    simp [colIdx, ha, ih h2]

lemma eraseIdx_concat (l : List α) (a : α) : (l ++ [a]).eraseIdx l.length = l := by
  induction l with
  | nil => rfl
  | cons x l ih => simpa [List.eraseIdx] using ih

lemma zip_map_append_none (rows : List (List (Option ℚ))) (vs : List (Option ℚ))
    (h : rows.length = vs.length) :
    (rows.zip (vs.map (fun _ => (none : Option ℚ)))).map (fun rv => rv.1 ++ [rv.2]) =
      rows.map (fun r => r ++ [none]) := by
  induction rows generalizing vs with
  | nil => simp
  | cons r rows ih =>
    cases vs with
    | nil => simp at h
    | cons v vs =>
      simp only [List.map_cons, List.zip_cons_cons]
      rw [ih vs (by simpa using h)]

lemma filter_snd_cons_true {α : Type} (x : α × Bool) (l : List (α × Bool))
    (hx : x.2 = true) :
    (x :: l).filter (fun rb => rb.2) = x :: l.filter (fun rb => rb.2) := by
  simp [List.filter_cons, hx]

lemma filter_snd_cons_false {α : Type} (x : α × Bool) (l : List (α × Bool))
    (hx : x.2 = false) :
    (x :: l).filter (fun rb => rb.2) = l.filter (fun rb => rb.2) := by
  simp [List.filter_cons, hx]

lemma filter_app_snd_cons_true {α β : Type} (g : β → Bool) (x : α × β)
    (l : List (α × β)) (hx : g x.2 = true) :
    (x :: l).filter (fun rc => g rc.2) = x :: l.filter (fun rc => g rc.2) := by
  simp [List.filter_cons, hx]

lemma filter_app_snd_cons_false {α β : Type} (g : β → Bool) (x : α × β)
    (l : List (α × β)) (hx : g x.2 = false) :
    (x :: l).filter (fun rc => g rc.2) = l.filter (fun rc => g rc.2) := by
  simp [List.filter_cons, hx]

lemma mask_filter_erase (n : Nat) (f : Option ℚ → Bool) :
    ∀ (rows : List (List (Option ℚ))) (vs : List (Option ℚ)),
      rows.length = vs.length → (∀ r ∈ rows, r.length = n) →
      ((((rows.map (fun r => r ++ [(none : Option ℚ)])).zip (vs.map f)).filter
          (fun rb => rb.2)).map (fun rb => rb.1)).map (fun r => r.eraseIdx n) =
        ((rows.zip vs).filter (fun rc => f rc.2)).map Prod.fst := by
  intro rows
  induction rows with
  | nil => intro vs h hr; simp
  | cons r rows ih =>
    intro vs h hr
    cases vs with
    | nil => simp at h
    | cons v vs =>
      have hrlen : r.length = n := hr r (by simp)
      have htail : ∀ r2 ∈ rows, r2.length = n := fun r2 h2 => hr r2 (by simp [h2])
      have hlen : rows.length = vs.length := by simpa using h
      cases hf : f v with
      | false =>
        simp only [List.map_cons, List.zip_cons_cons]
        rw [filter_snd_cons_false (r ++ [none], f v) _ hf,
          filter_app_snd_cons_false f (r, v) _ hf]
        exact ih vs hlen htail
      | true =>
        simp only [List.map_cons, List.zip_cons_cons]
        rw [filter_snd_cons_true (r ++ [none], f v) _ hf,
          filter_app_snd_cons_true f (r, v) _ hf]
        simp only [List.map_cons]
        rw [ih vs hlen htail]
        congr 1
        rw [← hrlen, eraseIdx_concat]

lemma getCol_mem_cols (df : DFrame) (c : String) (vs : List (Option ℚ))
    (hget : getCol df c = some vs) : c ∈ df.cols := by
  by_contra hx
  rw [getCol, if_neg hx] at hget
  simp at hget

lemma getCol_eq_map (df : DFrame) (c : String) (vs : List (Option ℚ))
    (hget : getCol df c = some vs) :
    vs = df.rows.map (fun r => r.getD (colIdx c df.cols) none) := by
  have hc := getCol_mem_cols df c vs hget
  rw [getCol, if_pos hc] at hget
  exact (Option.some_inj.mp hget).symm

lemma getCol_length (df : DFrame) (c : String) (vs : List (Option ℚ))
    (hget : getCol df c = some vs) : df.rows.length = vs.length := by
  rw [getCol_eq_map df c vs hget, List.length_map]

/-- Closed form of `detect_anomalies` on the non-degenerate path: when
the amount column exists, is not all-null, and the frame is well formed
without a pre-existing `zscore` column, the result keeps exactly the
input's columns and its rows are exactly the input rows whose amount
cell passes the z-score comparison. -/
lemma detect_anomalies_closed (df : DFrame) (col : String) (t : ℚ)
    (vs : List (Option ℚ)) (hwf : df.wf) (hget : getCol df col = some vs)
    (hsome : vs.any (fun c => c.isSome) = true) (hz : ("zscore") ∉ df.cols) :
    (detect_anomalies df col t).cols = df.cols ∧
    (detect_anomalies df col t).rows =
      ((df.rows.zip vs).filter (fun rc =>
        zcellFlag (popMean (vs.filterMap id)) (popVar (vs.filterMap id)) t rc.2)).map
        Prod.fst := by
  have hlen : df.rows.length = vs.length := getCol_length df col vs hget
  have hall : ¬ (vs.all (fun c => c.isNone) = true) := by
    intro hA
    rcases List.any_eq_true.mp hsome with ⟨c, hcmem, hcs⟩
    have hN := List.all_eq_true.mp hA c hcmem
    cases c with
    | none => simp at hcs
    | some x => simp at hN
  have hmem2 : ("zscore") ∈ df.cols ++ [("zscore")] := by simp
  have hidx : colIdx ("zscore") (df.cols ++ [("zscore")]) = df.cols.length :=
    colIdx_append_self ("zscore") df.cols hz
  simp only [detect_anomalies, hget, if_neg hall]
  rw [setCol, if_neg hz]
  rw [zip_map_append_none df.rows vs hlen]
  rw [filterMask]
  rw [dropCol]
  simp only [if_pos hmem2, hidx]
  constructor
  · exact eraseIdx_concat df.cols ("zscore")
  · rw [List.map_map]
    have := mask_filter_erase df.cols.length
      (zcellFlag (popMean (vs.filterMap id)) (popVar (vs.filterMap id)) t)
      df.rows vs hlen hwf
    rw [List.map_map] at this
    exact this

/-- The spec's anomaly example: amounts 10, 10, 10, 10, 1000. -/
def exValues : List ℚ := [10, 10, 10, 10, 1000]

/-- The example frame holding those amounts. -/
def exDF : DFrame :=
  ⟨[("Montant")], [[some 10], [some 10], [some 10], [some 10], [some 1000]]⟩

lemma zsc_ne_mont : ¬ (("zscore" : String) = ("Montant" : String)) := by decide

lemma mont_ne_zsc : ¬ (("Montant" : String) = ("zscore" : String)) := by decide

/-- C1 counterexample: on [10,10,10,10,1000] the code flags NOTHING at
threshold 3.0 — the population mean is 208 and the population variance
396², so the z-score of 1000 is exactly 792/396 = 2, not above 3 —
contradicting the claim that the 1000 row is flagged at threshold 3.0. -/
theorem detect_anomalies_threshold3_cex :
    (detect_anomalies exDF ("Montant") 3).rows = [] ∧
    popMean exValues = 208 ∧
    popVar exValues = 396 ^ 2 ∧
    (1000 - popMean exValues) ^ 2 = 2 ^ 2 * popVar exValues := by
  refine ⟨?_, ?_, ?_, ?_⟩
  · norm_num [detect_anomalies, getCol, setCol, dropCol, filterMask, colIdx,
      zcellFlag, zflag, popMean, popVar, List.filterMap_cons, exDF,
      zsc_ne_mont, mont_ne_zsc]
  · norm_num [popMean, exValues]
  · norm_num [popVar, popMean, exValues]
  · norm_num [popVar, popMean, exValues]

/-- C1 (amended): `detect_anomalies` flags exactly the rows whose
non-null amount x satisfies the z-score comparison against the
population mean and population standard deviation √(popVar) of the
non-null values (`zcellFlag` is that comparison, squared to stay in ℚ);
on the example values [10,10,10,10,1000], nothing is flagged at
thresholds 3.0 and 10.0 (the z-score of 1000 is exactly 2), while the
1000 row alone is flagged at threshold 1.5. -/
theorem detect_anomalies_zscore_spec :
    (∀ (df : DFrame) (col : String) (t : ℚ) (vs : List (Option ℚ)),
        df.wf → getCol df col = some vs → vs.any (fun c => c.isSome) = true →
        ("zscore") ∉ df.cols →
        (detect_anomalies df col t).rows =
          ((df.rows.zip vs).filter (fun rc =>
            zcellFlag (popMean (vs.filterMap id)) (popVar (vs.filterMap id)) t
              rc.2)).map Prod.fst) ∧
    (detect_anomalies exDF ("Montant") 3).rows = [] ∧
    (detect_anomalies exDF ("Montant") 10).rows = [] ∧
    (detect_anomalies exDF ("Montant") (3 / 2)).rows = [[some 1000]] ∧
    popMean exValues = 208 ∧ popVar exValues = 396 ^ 2 ∧
    (1000 - popMean exValues) ^ 2 = 2 ^ 2 * popVar exValues := by
  refine ⟨?_, ?_, ?_, ?_, ?_, ?_, ?_⟩
  · intro df col t vs hwf hget hsome hz
    exact (detect_anomalies_closed df col t vs hwf hget hsome hz).2
  · norm_num [detect_anomalies, getCol, setCol, dropCol, filterMask, colIdx,
      zcellFlag, zflag, popMean, popVar, List.filterMap_cons, exDF,
      zsc_ne_mont, mont_ne_zsc]
  · norm_num [detect_anomalies, getCol, setCol, dropCol, filterMask, colIdx,
      zcellFlag, zflag, popMean, popVar, List.filterMap_cons, exDF,
      zsc_ne_mont, mont_ne_zsc]
  · norm_num [detect_anomalies, getCol, setCol, dropCol, filterMask, colIdx,
      zcellFlag, zflag, popMean, popVar, List.filterMap_cons, exDF,
      zsc_ne_mont, mont_ne_zsc]
  · norm_num [popMean, exValues]
  · norm_num [popVar, popMean, exValues]
  · norm_num [popVar, popMean, exValues]

/-- C1 witness: the general characterization applied at the example
frame. -/
theorem detect_anomalies_zscore_spec_witness :
    (DFrame.wf exDF ∧
     getCol exDF ("Montant") =
       some [some 10, some 10, some 10, some 10, some 1000] ∧
     ([some 10, some 10, some 10, some 10, some 1000] : List (Option ℚ)).any
       (fun c => c.isSome) = true ∧
     ("zscore") ∉ exDF.cols) ∧
    (detect_anomalies exDF ("Montant") 3).rows =
      ((exDF.rows.zip [some 10, some 10, some 10, some 10, some 1000]).filter
        (fun rc =>
          zcellFlag
            (popMean (([some 10, some 10, some 10, some 10, some 1000] :
              List (Option ℚ)).filterMap id))
            (popVar (([some 10, some 10, some 10, some 10, some 1000] :
              List (Option ℚ)).filterMap id)) 3 rc.2)).map Prod.fst :=
  ⟨⟨by simp [DFrame.wf, exDF], by decide, by decide, by decide⟩,
   detect_anomalies_zscore_spec.1 exDF ("Montant") 3
     [some 10, some 10, some 10, some 10, some 1000]
     (by simp [DFrame.wf, exDF]) (by decide) (by decide) (by decide)⟩

/-- C8: `detect_anomalies` on degenerate input.  A missing amount
column or an all-null amount column yields the empty frame
`pd.DataFrame()` rather than an error, and a zero population variance
(zero standard deviation) flags no row: every float z-score is then
NaN, modelled by `zflag` returning false when the variance is 0. -/
theorem detect_anomalies_degenerate_spec :
    (∀ (df : DFrame) (col : String) (t : ℚ), col ∉ df.cols →
        detect_anomalies df col t = ⟨[], []⟩) ∧
    (∀ (df : DFrame) (col : String) (t : ℚ) (vs : List (Option ℚ)),
        getCol df col = some vs → vs.all (fun c => c.isNone) = true →
        detect_anomalies df col t = ⟨[], []⟩) ∧
    (∀ (df : DFrame) (col : String) (t : ℚ) (vs : List (Option ℚ)),
        getCol df col = some vs → popVar (vs.filterMap id) = 0 →
        (detect_anomalies df col t).rows = []) := by
  refine ⟨?_, ?_, ?_⟩
  · intro df col t h
    have hnone : getCol df col = none := by rw [getCol, if_neg h]
    simp only [detect_anomalies, hnone]
  · intro df col t vs hget hA
    simp only [detect_anomalies, hget, if_pos hA]
  · intro df col t vs hget hv
    by_cases hA : vs.all (fun c => c.isNone) = true
    · simp only [detect_anomalies, hget, if_pos hA]
    · simp only [detect_anomalies, hget, if_neg hA]
      have hflag : ∀ c, zcellFlag (popMean (vs.filterMap id))
          (popVar (vs.filterMap id)) t c = false := by
        intro c
        cases c with
        | none => rfl
        | some x => simp [zcellFlag, zflag, hv]
      have hfil :
          (((setCol df ("zscore") (vs.map (fun _ => (none : Option ℚ)))).rows.zip
            (vs.map (zcellFlag (popMean (vs.filterMap id))
              (popVar (vs.filterMap id)) t))).filter (fun rb => rb.2)) = [] := by
        rw [List.filter_eq_nil_iff]
        intro p hp
        have hsnd := (List.of_mem_zip hp).2
        rcases List.mem_map.mp hsnd with ⟨c, _, hcEq⟩
        rw [← hcEq, hflag c]
        simp
      have hrows0 :
          (filterMask (setCol df ("zscore") (vs.map (fun _ => (none : Option ℚ))))
            (vs.map (zcellFlag (popMean (vs.filterMap id))
              (popVar (vs.filterMap id)) t))).rows = [] := by
        simp only [filterMask]
        rw [hfil]
        rfl
      rw [dropCol]
      split_ifs with hmem
      · simp only [hrows0, List.map_nil]
      · exact hrows0

/-- Frames for the C8 witness: a frame without the requested column, an
all-null frame, and a constant (zero-variance) frame. -/
def dfNoCol : DFrame := ⟨[("Montant")], [[some 5]]⟩

def dfAllNull : DFrame := ⟨[("Montant")], [[none], [none]]⟩

def dfConst : DFrame := ⟨[("Montant")], [[some 7], [some 7]]⟩

/-- C8 witness: the three degenerate conclusions at concrete frames. -/
theorem detect_anomalies_degenerate_spec_witness :
    (("Autre") ∉ dfNoCol.cols ∧ detect_anomalies dfNoCol ("Autre") 3 = ⟨[], []⟩) ∧
    (getCol dfAllNull ("Montant") = some [none, none] ∧
     ([none, none] : List (Option ℚ)).all (fun c => c.isNone) = true ∧
     detect_anomalies dfAllNull ("Montant") 3 = ⟨[], []⟩) ∧
    (getCol dfConst ("Montant") = some [some 7, some 7] ∧
     popVar (([some 7, some 7] : List (Option ℚ)).filterMap id) = 0 ∧
     (detect_anomalies dfConst ("Montant") 3).rows = []) :=
  ⟨⟨by decide, detect_anomalies_degenerate_spec.1 dfNoCol ("Autre") 3 (by decide)⟩,
   ⟨by decide, by decide,
    detect_anomalies_degenerate_spec.2.1 dfAllNull ("Montant") 3 [none, none]
      (by decide) (by decide)⟩,
   ⟨by decide,
    by norm_num [popVar, popMean, List.filterMap_cons],
    detect_anomalies_degenerate_spec.2.2 dfConst ("Montant") 3 [some 7, some 7]
      (by decide) (by norm_num [popVar, popMean, List.filterMap_cons])⟩⟩

/-- A frame that already carries a `zscore` column. -/
def dfZ : DFrame := ⟨[("Montant"), ("zscore")], [[some 10, none], [some 20, none]]⟩

/-- C10 counterexample: on a frame that already has a `zscore` column
(amount column present and non-null, so the non-degenerate path runs),
the result does not have the input's columns: the temporary z-score
column overwrites and then drops the caller's own `zscore` column. -/
theorem detect_anomalies_zscore_column_cex :
    getCol dfZ ("Montant") = some [some 10, some 20] ∧
    (detect_anomalies dfZ ("Montant") 3).cols = [("Montant")] ∧
    (detect_anomalies dfZ ("Montant") 3).cols ≠ dfZ.cols := by
  refine ⟨by decide, ?_, ?_⟩
  · norm_num [detect_anomalies, getCol, setCol, dropCol, filterMask, colIdx,
      zcellFlag, zflag, popMean, popVar, List.filterMap_cons, dfZ,
      zsc_ne_mont, mont_ne_zsc]
  · norm_num [detect_anomalies, getCol, setCol, dropCol, filterMask, colIdx,
      zcellFlag, zflag, popMean, popVar, List.filterMap_cons, dfZ,
      zsc_ne_mont, mont_ne_zsc]

/-- C10 (amended): on a well-formed frame whose amount column exists
and is not all-null and that does not already carry a `zscore` column,
`detect_anomalies` works on a copy (the embedding of `df.copy()` — the
caller's frame value is untouched), returns only rows of the input
(a sublist), and returns exactly the input's columns, the temporary
z-score column having been dropped. -/
theorem detect_anomalies_frame_spec :
    ∀ (df : DFrame) (col : String) (t : ℚ) (vs : List (Option ℚ)),
      df.wf → getCol df col = some vs → vs.any (fun c => c.isSome) = true →
      ("zscore") ∉ df.cols →
      (detect_anomalies df col t).cols = df.cols ∧
      (detect_anomalies df col t).rows.Sublist df.rows := by
  intro df col t vs hwf hget hsome hz
  obtain ⟨hcols, hrows⟩ := detect_anomalies_closed df col t vs hwf hget hsome hz
  refine ⟨hcols, ?_⟩
  rw [hrows]
  have hlen : df.rows.length = vs.length := getCol_length df col vs hget
  have h1 := (List.filter_sublist (l := df.rows.zip vs)
    (p := fun rc => zcellFlag (popMean (vs.filterMap id))
      (popVar (vs.filterMap id)) t rc.2)).map Prod.fst
  rw [List.map_fst_zip df.rows vs (le_of_eq hlen)] at h1
  exact h1

/-- C10 witness: the frame-effect theorem applied at the example frame. -/
theorem detect_anomalies_frame_spec_witness :
    (DFrame.wf exDF ∧
     getCol exDF ("Montant") =
       some [some 10, some 10, some 10, some 10, some 1000] ∧
     ([some 10, some 10, some 10, some 10, some 1000] : List (Option ℚ)).any
       (fun c => c.isSome) = true ∧
     ("zscore") ∉ exDF.cols) ∧
    ((detect_anomalies exDF ("Montant") 3).cols = exDF.cols ∧
     (detect_anomalies exDF ("Montant") 3).rows.Sublist exDF.rows) :=
  ⟨⟨by simp [DFrame.wf, exDF], by decide, by decide, by decide⟩,
   detect_anomalies_frame_spec exDF ("Montant") 3
     [some 10, some 10, some 10, some 10, some 1000]
     (by simp [DFrame.wf, exDF]) (by decide) (by decide) (by decide)⟩
